import Mathlib

/-!
Verification of the Claude proxy core of PromptOptimizationMVP
(`src/services/claude/ClaudeProxy.ts`, `src/services/claude/interceptors.ts`,
`src/services/claude/types.ts`, and the message route).

The TypeScript sources are shallowly embedded: JS objects become structures,
`Date.now()` values become explicit `Nat` parameters, the upstream Anthropic
client becomes an oracle `UpstreamParams → Nat → UpstreamOutcome` (attempt
number → outcome), and thrown JS errors become `Except` error values.
-/

namespace PromptProxy

/-! ### Data model (types.ts) -/

/-- A chat message (`MessageParam` from the Anthropic SDK): role plus content. -/
structure MessageParam where
  role : String
  content : String
deriving DecidableEq, Repr

/-- Model of `ClaudeRequest` (types.ts lines 23-31).  Optional JS fields become `Option`;
`temperature` (a JS number) is modelled as a rational. -/
structure ClaudeRequest where
  messages : List MessageParam
  model : Option String := none
  max_tokens : Option Nat := none
  temperature : Option ℚ := none
  system : Option String := none
  metadata : List (String × String) := []
  stream : Option Bool := none
deriving DecidableEq, Repr

/-- Token usage counts attached to an upstream response. -/
structure Usage where
  input_tokens : Nat
  output_tokens : Nat
deriving DecidableEq, Repr

/-- Model of `ProxyMetrics` (types.ts lines 37-46).  `timestamp` is an epoch-ms value;
`cost` (a JS number) is modelled as a rational. -/
structure ProxyMetrics where
  requestId : String
  timestamp : Nat
  latencyMs : Int
  overheadMs : Int
  tokensUsed : Nat
  cost : ℚ
  cacheHit : Bool
  retryCount : Nat
deriving DecidableEq, Repr

/-- Model of `ClaudeResponse` (types.ts lines 33-35): the upstream `Message` payload
plus optional attached metrics.  Content blocks are modelled as strings. -/
structure ClaudeResponse where
  id : String
  content : List String
  stop_reason : Option String := none
  usage : Option Usage := none
  proxyMetrics : Option ProxyMetrics := none
deriving DecidableEq, Repr

/-- The upstream SDK `Message` (a `ClaudeResponse` before metrics are attached). -/
structure UpstreamMessage where
  id : String
  content : List String
  stop_reason : Option String := none
  usage : Option Usage := none
deriving DecidableEq, Repr

/-- A thrown JS error value, covering `ProxyError` (types.ts lines 66-70) and the
`CACHE_HIT` carrier object built in interceptors.ts lines 158-166. -/
structure JSError where
  message : String := ""
  statusCode : Option Nat := none
  retryable : Option Bool := none
  requestId : Option String := none
  cachedResponse : Option ClaudeResponse := none
deriving DecidableEq, Repr

/-! ### Config construction (ClaudeProxy.ts constructor, lines 30-39)

JS `a || b` yields `b` when `a` is absent, `0`, or `""`; these helpers mirror
that truthiness-based defaulting. -/

/-- JS `x || d` for an optional number field. -/
def jsOrNat : Option Nat → Nat → Nat
  | some n, d => if n = 0 then d else n
  | none, d => d

/-- JS `x || d` for an optional string field. -/
def jsOrStr : Option String → String → String
  | some s, d => if s = "" then d else s
  | none, d => d

/-- Model of `ClaudeProxyConfig` as passed by the caller (all fields but the key optional). -/
structure ClaudeProxyConfigInput where
  apiKey : String
  apiUrl : Option String := none
  apiVersion : Option String := none
  model : Option String := none
  maxRetries : Option Nat := none
  timeoutMs : Option Nat := none
  enableMetrics : Option Bool := none
deriving DecidableEq, Repr

/-- Model of `Required<ClaudeProxyConfig>`: the defaulted config stored on the proxy. -/
structure ProxyConfig where
  apiKey : String
  apiUrl : String
  apiVersion : String
  model : String
  maxRetries : Nat
  timeoutMs : Nat
  enableMetrics : Bool
deriving DecidableEq, Repr

/-- The constructor's defaulting (ClaudeProxy.ts lines 31-39): `||` defaults for
the scalar fields, `??` for `enableMetrics`. -/
def mkProxyConfig (c : ClaudeProxyConfigInput) : ProxyConfig :=
  { apiKey := c.apiKey
    apiUrl := jsOrStr c.apiUrl "https://api.anthropic.com"
    apiVersion := jsOrStr c.apiVersion "2023-06-01"
    model := jsOrStr c.model "claude-3-sonnet-20240229"
    maxRetries := jsOrNat c.maxRetries 3
    timeoutMs := jsOrNat c.timeoutMs 30000
    enableMetrics := c.enableMetrics.getD true }

/-! ### Retry engine (ClaudeProxy.ts lines 60-97, p-retry semantics) -/

/-- The status codes treated as retryable (ClaudeProxy.ts line 88). -/
def retryableStatusCodes : List Nat := [429, 500, 502, 503, 504]

/-- Model of `RetryOptions` (types.ts lines 48-54). -/
structure RetryOptions where
  retries : Nat
  factor : Nat
  minTimeout : Nat
  maxTimeout : Nat
deriving DecidableEq, Repr

/-- The guard `apiError.statusCode && [429,500,502,503,504].includes(apiError.statusCode)`:
the guard is falsy when the code is absent or `0`. -/
def isRetryableStatus : Option Nat → Bool
  | some c => c != 0 && retryableStatusCodes.contains c
  | none => false

/-- One upstream attempt either resolves with a message or rejects with an error. -/
inductive UpstreamOutcome where
  | ok (msg : UpstreamMessage)
  | err (e : JSError)
deriving Repr

/-- What the p-retry callback body does with one attempt (ClaudeProxy.ts lines
73-96): success passes through; a retryable-status error is annotated
`retryable := true` and rethrown; anything else becomes `new AbortError(message)`
(which carries only the message). -/
inductive AttemptResult where
  | ok (msg : UpstreamMessage)
  | retryable (e : JSError)
  | abort (message : String)
deriving Repr

/-- Classification performed by the callback's catch block. -/
def classifyAttempt : UpstreamOutcome → AttemptResult
  | .ok m => .ok m
  | .err e =>
    if isRetryableStatus e.statusCode then .retryable { e with retryable := some true }
    else .abort e.message

/-- The wait p-retry inserts after failed attempt number `attempt` (0-based):
`min(random * minTimeout * factor^attempt, maxTimeout)` with `random = 1`. -/
def backoffWait (opts : RetryOptions) (attempt : Nat) : Nat :=
  min (opts.minTimeout * opts.factor ^ attempt) opts.maxTimeout

/-- Result of a whole retry loop: the settled value, the number of attempts
actually made, and the backoff waits inserted between attempts. -/
structure RetryRun where
  result : Except JSError UpstreamMessage
  attempts : Nat
  waits : List Nat
deriving Repr

/-- p-retry's driver: run the callback; stop on success or `AbortError`; on a
rethrown (retryable) error, wait and re-run while retry budget (`fuel`) remains,
surfacing the last error once the budget is exhausted. -/
def pRetryAux (opts : RetryOptions) (oracle : Nat → UpstreamOutcome) :
    Nat → Nat → RetryRun
  | fuel, idx =>
    match classifyAttempt (oracle idx) with
    | .ok m => ⟨.ok m, 1, []⟩
    | .abort msg => ⟨.error { message := msg }, 1, []⟩
    | .retryable e =>
      match fuel with
      | 0 => ⟨.error e, 1, []⟩
      | fuel + 1 =>
        let rest := pRetryAux opts oracle fuel (idx + 1)
        ⟨rest.result, rest.attempts + 1, backoffWait opts idx :: rest.waits⟩

/-- Running `pRetry(fn, retryOptions)` with `retries` retries: at most `retries + 1` attempts. -/
def pRetryRun (opts : RetryOptions) (oracle : Nat → UpstreamOutcome) : RetryRun :=
  pRetryAux opts oracle opts.retries 0

/-! ### Interceptor pipelines (ClaudeProxy.ts lines 141-182) -/

/-- Model of `RequestInterceptor` (types.ts lines 56-59); a rejected promise is an `Except.error`. -/
structure RequestInterceptor where
  name : String
  execute : ClaudeRequest → Except JSError ClaudeRequest

/-- Model of `ResponseInterceptor` (types.ts lines 61-64). -/
structure ResponseInterceptor where
  name : String
  execute : ClaudeResponse → Except JSError ClaudeResponse

/-- Model of `applyRequestInterceptors` (ClaudeProxy.ts lines 154-167): fold the pipeline
in order; every failure is logged and rethrown, aborting the rest. -/
def applyRequestInterceptors :
    List RequestInterceptor → ClaudeRequest → Except JSError ClaudeRequest
  | [], r => .ok r
  | i :: rest, r =>
    match i.execute r with
    | .ok r2 => applyRequestInterceptors rest r2
    | .error e => .error e

/-- Model of `applyResponseInterceptors` (ClaudeProxy.ts lines 169-182). -/
def applyResponseInterceptors :
    List ResponseInterceptor → ClaudeResponse → Except JSError ClaudeResponse
  | [], r => .ok r
  | i :: rest, r =>
    match i.execute r with
    | .ok r2 => applyResponseInterceptors rest r2
    | .error e => .error e

/-! ### Metrics pieces (ClaudeProxy.ts lines 102-119, 184-199) -/

/-- Model of `generateRequestId` (lines 184-187): the counter is pre-incremented, so the id
embeds the incremented value.  `newCount` is `this.requestCount` after `++`. -/
def generateRequestId (now : Nat) (newCount : Nat) : String :=
  "claude-" ++ Nat.repr now ++ "-" ++ Nat.repr newCount

/-- Model of `calculateCost` (lines 189-199): hard-coded Claude 3 Sonnet prices,
$3 / $15 per million input/output tokens; `0` when usage is absent. -/
def calculateCost : Option Usage → ℚ
  | none => 0
  | some u => (u.input_tokens : ℚ) / 1000000 * 3 + (u.output_tokens : ℚ) / 1000000 * 15

/-- The expression `response.usage?.input_tokens + response.usage?.output_tokens || 0` (line 115):
`NaN || 0` collapses the missing-usage case to `0`. -/
def tokensUsedOf : Option Usage → Nat
  | some u => u.input_tokens + u.output_tokens
  | none => 0

/-- The `Date.now()` readings a single `sendMessage` call makes, in program order
(lines 52, 71, 99, 100) plus the `new Date()` of line 112. -/
structure CallClock where
  startTime : Nat
  apiStartTime : Nat
  apiEndTime : Nat
  endTime : Nat
  metricsTimestamp : Nat
deriving DecidableEq, Repr

/-- The arguments of `this.client.messages.create(...)` (lines 75-82), after the
`||` defaulting of `model` and `max_tokens`. -/
structure UpstreamParams where
  model : String
  messages : List MessageParam
  max_tokens : Nat
  temperature : Option ℚ
  system : Option String
  stream : Bool
deriving DecidableEq, Repr

/-- Build the upstream call arguments from the intercepted request (lines 75-82). -/
def buildUpstreamParams (cfg : ProxyConfig) (r : ClaudeRequest) : UpstreamParams :=
  { model := jsOrStr r.model cfg.model
    messages := r.messages
    max_tokens := jsOrNat r.max_tokens 4096
    temperature := r.temperature
    system := r.system
    stream := false }

/-- The enriched response built at lines 107-121 from the upstream message. -/
def enhanceResponse (cfg : ProxyConfig) (clock : CallClock) (requestId : String)
    (msg : UpstreamMessage) : ClaudeResponse :=
  let latencyMs : Int := (clock.apiEndTime : Int) - (clock.apiStartTime : Int)
  let overheadMs : Int := ((clock.endTime : Int) - (clock.startTime : Int)) - latencyMs
  { id := msg.id
    content := msg.content
    stop_reason := msg.stop_reason
    usage := msg.usage
    proxyMetrics :=
      if cfg.enableMetrics then
        some { requestId := requestId
               timestamp := clock.metricsTimestamp
               latencyMs := latencyMs
               overheadMs := overheadMs
               tokensUsed := tokensUsedOf msg.usage
               cost := calculateCost msg.usage
               cacheHit := false
               retryCount := 0 }
      else none }

/-! ### `sendMessage` (ClaudeProxy.ts lines 51-133)

The outcome records the settled result, how many upstream attempts were made,
and the backoff waits.  The catch block (lines 125-132) annotates every escaping
error with the request id and rethrows it — whatever the error is. -/

structure SendOutcome where
  result : Except JSError ClaudeResponse
  upstreamAttempts : Nat
  waits : List Nat
deriving Repr

/-- One `sendMessage` call, for pipelines of stateless interceptors.
`upstream params attempt` is the outcome of upstream attempt number `attempt`
(0-based) for the given call arguments; `requestId` is the id generated at
line 53. -/
def sendMessage (cfg : ProxyConfig) (reqIcpts : List RequestInterceptor)
    (respIcpts : List ResponseInterceptor)
    (upstream : UpstreamParams → Nat → UpstreamOutcome)
    (clock : CallClock) (requestId : String) (request : ClaudeRequest) : SendOutcome :=
  match applyRequestInterceptors reqIcpts request with
  | .error e => ⟨.error { e with requestId := some requestId }, 0, []⟩
  | .ok interceptedRequest =>
    let retryOptions : RetryOptions :=
      { retries := cfg.maxRetries, factor := 2, minTimeout := 1000, maxTimeout := 10000 }
    let params := buildUpstreamParams cfg interceptedRequest
    let run := pRetryRun retryOptions (upstream params)
    match run.result with
    | .error e => ⟨.error { e with requestId := some requestId }, run.attempts, run.waits⟩
    | .ok msg =>
      let enhancedResponse := enhanceResponse cfg clock requestId msg
      match applyResponseInterceptors respIcpts enhancedResponse with
      | .ok final => ⟨.ok final, run.attempts, run.waits⟩
      | .error e => ⟨.error { e with requestId := some requestId }, run.attempts, run.waits⟩

/-! ### Proxy instance state and `removeInterceptor` (ClaudeProxy.ts lines 23-28, 149-152) -/

structure ProxyState where
  requestInterceptors : List RequestInterceptor := []
  responseInterceptors : List ResponseInterceptor := []
  requestCount : Nat := 0

/-- Model of `removeInterceptor` (lines 149-152): `filter` builds fresh arrays and
reassigns the fields, leaving any array captured by an in-progress `for..of`
loop untouched. -/
def removeInterceptor (st : ProxyState) (name : String) : ProxyState :=
  { st with
    requestInterceptors := st.requestInterceptors.filter (fun i => i.name != name)
    responseInterceptors := st.responseInterceptors.filter (fun i => i.name != name) }

/-- The externally triggered mutation that can interleave with an in-flight call
at its `await` points. -/
inductive MidFlightEvent where
  | quiet
  | removeBetweenPhases (name : String)

/-- One `sendMessage` call on a live proxy, with an optional `removeInterceptor`
interleaved while the call is suspended between its request phase and its
response phase (e.g. while awaiting the upstream call).  Each pipeline phase
reads the instance field when the phase starts — the source has no snapshot at
call start. -/
def sendMessageInFlight (cfg : ProxyConfig) (st : ProxyState) (ev : MidFlightEvent)
    (upstream : UpstreamParams → Nat → UpstreamOutcome)
    (clock : CallClock) (requestId : String) (request : ClaudeRequest) : SendOutcome :=
  match applyRequestInterceptors st.requestInterceptors request with
  | .error e => ⟨.error { e with requestId := some requestId }, 0, []⟩
  | .ok interceptedRequest =>
    let retryOptions : RetryOptions :=
      { retries := cfg.maxRetries, factor := 2, minTimeout := 1000, maxTimeout := 10000 }
    let params := buildUpstreamParams cfg interceptedRequest
    let run := pRetryRun retryOptions (upstream params)
    let stAtResponsePhase :=
      match ev with
      | .quiet => st
      | .removeBetweenPhases name => removeInterceptor st name
    match run.result with
    | .error e => ⟨.error { e with requestId := some requestId }, run.attempts, run.waits⟩
    | .ok msg =>
      let enhancedResponse := enhanceResponse cfg clock requestId msg
      match applyResponseInterceptors stAtResponsePhase.responseInterceptors enhancedResponse with
      | .ok final => ⟨.ok final, run.attempts, run.waits⟩
      | .error e => ⟨.error { e with requestId := some requestId }, run.attempts, run.waits⟩

/-! ### Request-id generation across calls (ClaudeProxy.ts lines 184-187)

`sendMessage` begins by running `generateRequestId` once; JS's single-threaded
event loop makes the `this.requestCount++` of each call atomic, so a sequence of
calls (however their awaits interleave) performs a sequence of increments. -/

/-- Run `generateRequestId` once per call for the given `Date.now()` readings,
starting from counter value `count`; returns the ids and the final counter. -/
def runIdGeneration : List Nat → Nat → List String × Nat
  | [], count => ([], count)
  | t :: ts, count =>
    let newCount := count + 1
    let rest := runIdGeneration ts newCount
    (generateRequestId t newCount :: rest.1, rest.2)

/-! ### Token-limit interceptor (interceptors.ts lines 85-103) -/

/-- The body of the `token-limit` interceptor: clamp an over-limit `max_tokens`
(the JS guard `request.max_tokens && request.max_tokens > maxTokens` is falsy
for an absent or zero field), otherwise return the request unchanged. -/
def tokenLimitExecute (maxTokens : Nat) (request : ClaudeRequest) : ClaudeRequest :=
  match request.max_tokens with
  | some m => if m ≠ 0 ∧ maxTokens < m then { request with max_tokens := some maxTokens } else request
  | none => request

/-- Model of `createTokenLimitInterceptor` (never rejects). -/
def createTokenLimitInterceptor (maxTokens : Nat) : RequestInterceptor :=
  { name := "token-limit"
    execute := fun r => .ok (tokenLimitExecute maxTokens r) }

/-! ### Simple cache interceptor (interceptors.ts lines 133-204)

`getCacheKey` is `JSON.stringify` of the object holding exactly the four
semantically relevant fields.  `JSON.stringify` drops keys whose value is
`undefined`, so absent optional fields do not appear in the key. -/

/-- JSON string escaping for the characters our model prints specially. -/
def jsonEscapeChar (c : Char) : List Char :=
  if c = '"' then ['\\', '"']
  else if c = '\\' then ['\\', '\\']
  else [c]

/-- A JSON string literal for `s`. -/
def jsonQuote (s : String) : String :=
  ⟨'"' :: (s.data.foldr (fun c acc => jsonEscapeChar c ++ acc) ['"'])⟩

/-- Model of JSON number rendering for the temperature; only determinism of the
derived key matters for the claims, not the exact digits. -/
def jsonNumber (q : ℚ) : String :=
  Int.repr q.num ++ "/" ++ Nat.repr q.den

/-- One element of the `messages` array as serialized by `JSON.stringify`. -/
def stringifyMessage (m : MessageParam) : String :=
  "\x7b\"role\":" ++ jsonQuote m.role ++ ",\"content\":" ++ jsonQuote m.content ++ "\x7d"

/-- Model of `getCacheKey` (interceptors.ts lines 139-146): a deterministic digest of
`messages`, `model`, `temperature` and `system` — `metadata`, `stream` and the
request id never enter the key. -/
def getCacheKey (request : ClaudeRequest) : String :=
  "\x7b\"messages\":[" ++ String.intercalate "," (request.messages.map stringifyMessage) ++ "]"
    ++ (match request.model with
        | some m => ",\"model\":" ++ jsonQuote m
        | none => "")
    ++ (match request.temperature with
        | some t => ",\"temperature\":" ++ jsonNumber t
        | none => "")
    ++ (match request.system with
        | some s => ",\"system\":" ++ jsonQuote s
        | none => "")
    ++ "\x7d"

/-- An entry of the interceptor's private `Map`. -/
structure CacheEntry where
  response : ClaudeResponse
  expiry : Nat
deriving DecidableEq, Repr

/-- The `Map<string, {response, expiry}>`, as an insertion-ordered association list. -/
abbrev CacheMap : Type := List (String × CacheEntry)

/-- Model of `Map.prototype.get`. -/
def mapGet (cache : CacheMap) (k : String) : Option CacheEntry :=
  match List.find? (fun kv => kv.1 == k) cache with
  | some kv => some kv.2
  | none => none

/-- Model of `Map.prototype.set`: replace in place if present, else append. -/
def mapSet (cache : CacheMap) (k : String) (v : CacheEntry) : CacheMap :=
  if List.any cache (fun kv => kv.1 == k) then
    List.map (fun kv => if kv.1 == k then (k, v) else kv) cache
  else cache ++ [(k, v)]

/-- The metrics object built on a hit (interceptors.ts lines 161-165):
`{...cached.response.proxyMetrics!, cacheHit: true, overheadMs: 1}`.  When the
stored response carried no metrics, the JS spread of `undefined` leaves only the
two overridden fields; the remaining fields are modelled as zero values. -/
def cacheHitMetrics : Option ProxyMetrics → ProxyMetrics
  | some m => { m with cacheHit := true, overheadMs := 1 }
  | none =>
    { requestId := "", timestamp := 0, latencyMs := 0, overheadMs := 1
      tokensUsed := 0, cost := 0, cacheHit := true, retryCount := 0 }

/-- The `cache-check` request interceptor (interceptors.ts lines 149-172): on a
fresh entry it throws the `CACHE_HIT` error carrying the adjusted cached
response; otherwise it passes the request through. -/
def cacheCheckExecute (cache : CacheMap) (now : Nat) (request : ClaudeRequest) :
    Except JSError ClaudeRequest :=
  let key := getCacheKey request
  match mapGet cache key with
  | some cached =>
    if now < cached.expiry then
      Except.error
        { message := "CACHE_HIT"
          cachedResponse := some
            { cached.response with
              proxyMetrics := some (cacheHitMetrics cached.response.proxyMetrics) } }
    else Except.ok request
  | none => Except.ok request

/-- The `cache-store` response interceptor (interceptors.ts lines 173-202):
skip `stop_sequence` responses, otherwise store under the constant
`'placeholder-key'`; with probability 0.1 (`cleanup`) evict expired entries. -/
def cacheStoreExecute (cache : CacheMap) (now : Nat) (ttlMs : Nat) (cleanup : Bool)
    (response : ClaudeResponse) : CacheMap × ClaudeResponse :=
  if response.stop_reason = some "stop_sequence" then (cache, response)
  else
    let stored := mapSet cache "placeholder-key" ⟨response, now + ttlMs⟩
    let cleaned :=
      if cleanup then List.filter (fun kv => !decide (kv.2.expiry < now)) stored
      else stored
    (cleaned, response)

/-- Outcome of one `sendMessage` call made with the simple cache interceptor pair
installed (request pipeline `[cache-check]`, response pipeline `[cache-store]`):
the settled result, the cache store afterwards, and the upstream attempt count. -/
structure CacheCallOutcome where
  result : Except JSError ClaudeResponse
  cache : CacheMap
  upstreamAttempts : Nat

/-- Model of `sendMessage` specialised to the cache interceptor pair, threading the
interceptor's private `Map` explicitly.  `checkNow`/`storeNow` are the
`Date.now()` readings inside the two interceptors; the control flow is exactly
that of `sendMessage` with these pipelines (a throwing request interceptor is
rethrown by `applyRequestInterceptors` and reaches the catch block of lines
125-132, which annotates the request id and rethrows to the caller). -/
def sendMessageWithCacheInterceptor (cfg : ProxyConfig) (ttlMs : Nat) (cache : CacheMap)
    (upstream : UpstreamParams → Nat → UpstreamOutcome) (clock : CallClock)
    (checkNow storeNow : Nat) (cleanup : Bool) (requestId : String)
    (request : ClaudeRequest) : CacheCallOutcome :=
  match cacheCheckExecute cache checkNow request with
  | .error e => ⟨.error { e with requestId := some requestId }, cache, 0⟩
  | .ok interceptedRequest =>
    let retryOptions : RetryOptions :=
      { retries := cfg.maxRetries, factor := 2, minTimeout := 1000, maxTimeout := 10000 }
    let params := buildUpstreamParams cfg interceptedRequest
    let run := pRetryRun retryOptions (upstream params)
    match run.result with
    | .error e => ⟨.error { e with requestId := some requestId }, cache, run.attempts⟩
    | .ok msg =>
      let enhancedResponse := enhanceResponse cfg clock requestId msg
      let storeResult := cacheStoreExecute cache storeNow ttlMs cleanup enhancedResponse
      ⟨.ok storeResult.2, storeResult.1, run.attempts⟩

/-! ### The HTTP message route (routes file, `POST /claude/message`)

The route — not the proxy — rejects an absent or empty `messages` array with
HTTP 400 before `proxy.sendMessage` is ever called. -/

inductive RouteResult where
  | badRequest (error message : String)
  | completed (out : SendOutcome)

/-- The route handler body: validate, then delegate to the proxy.  The second
component counts the upstream attempts the handled request caused. -/
def messageRoute (cfg : ProxyConfig) (reqIcpts : List RequestInterceptor)
    (respIcpts : List ResponseInterceptor)
    (upstream : UpstreamParams → Nat → UpstreamOutcome)
    (clock : CallClock) (requestId : String) (request : ClaudeRequest) :
    RouteResult × Nat :=
  if request.messages.isEmpty then
    (RouteResult.badRequest "Invalid request" "Messages array is required", 0)
  else
    let out := sendMessage cfg reqIcpts respIcpts upstream clock requestId request
    (RouteResult.completed out, out.upstreamAttempts)

/-! ### Result extractors (observation helpers used in the theorem statements) -/

/-- The message of a settled error, if the call failed. -/
def resultErrMessage : Except JSError ClaudeResponse → Option String
  | .error e => some e.message
  | .ok _ => none

/-- The whole settled error, if the call failed. -/
def resultErr : Except JSError ClaudeResponse → Option JSError
  | .error e => some e
  | .ok _ => none

/-- The `cacheHit` metric of a successful response carrying metrics. -/
def resultCacheHit : Except JSError ClaudeResponse → Option Bool
  | .ok r => (r.proxyMetrics).map (fun m => m.cacheHit)
  | .error _ => none

/-- The `cost` metric of a successful response carrying metrics. -/
def resultCost : Except JSError ClaudeResponse → Option ℚ
  | .ok r => (r.proxyMetrics).map (fun m => m.cost)
  | .error _ => none

/-- The `overheadMs` metric of a successful response carrying metrics. -/
def resultOverheadMs : Except JSError ClaudeResponse → Option Int
  | .ok r => (r.proxyMetrics).map (fun m => m.overheadMs)
  | .error _ => none

/-- The id of a successful response. -/
def resultId : Except JSError ClaudeResponse → Option String
  | .ok r => some r.id
  | .error _ => none

/-- The error carried by a failed retry-run result. -/
def runErr : Except JSError UpstreamMessage → Option JSError
  | .error e => some e
  | .ok _ => none

/-- The message of a failed retry-run result. -/
def runErrMessage : Except JSError UpstreamMessage → Option String
  | .error e => some e.message
  | .ok _ => none

/-- Whether an upstream outcome is an error the catch block classifies retryable. -/
def isRetryableErrOutcome : UpstreamOutcome → Bool
  | .err e => isRetryableStatus e.statusCode
  | .ok _ => false

/-- Whether an upstream outcome is an error the catch block aborts on. -/
def isFatalErrOutcome : UpstreamOutcome → Bool
  | .err e => !isRetryableStatus e.statusCode
  | .ok _ => false

/-- The message of an upstream error outcome. -/
def outcomeErrMessage : UpstreamOutcome → Option String
  | .err e => some e.message
  | .ok _ => none

/-- The error of an upstream error outcome. -/
def outcomeErr : UpstreamOutcome → Option JSError
  | .err e => some e
  | .ok _ => none

/-! ### Decimal parsing (used to prove request-id uniqueness) -/

/-- The numeric value of a decimal digit character. -/
def charToDigit (c : Char) : Nat := c.toNat - '0'.toNat

/-- Value of a decimal digit string (most significant digit first). -/
def digitsToNat (l : List Char) : Nat :=
  l.foldl (fun acc c => 10 * acc + charToDigit c) 0

/-! ### Concrete scenario inputs used by the counterexamples and witnesses -/

/-- A well-formed request used throughout the concrete runs. -/
def demoRequest : ClaudeRequest :=
  { messages := [⟨"user", "hi"⟩], model := some "claude-3-sonnet-20240229" }

/-- A successful upstream message for the concrete runs. -/
def demoMsg : UpstreamMessage :=
  { id := "msg-1", content := ["hello"], stop_reason := some "end_turn"
    usage := some ⟨12, 34⟩ }

/-- A proxy built from a minimal config (all defaults). -/
def demoCfg : ProxyConfig := mkProxyConfig { apiKey := "key" }

/-- An always-successful upstream. -/
def demoUpstream : UpstreamParams → Nat → UpstreamOutcome := fun _ _ => .ok demoMsg

/-- C1 scenario, first call: cache interceptor pair installed, empty cache. -/
def cacheDemoCall1 : CacheCallOutcome :=
  sendMessageWithCacheInterceptor demoCfg 60000 [] demoUpstream
    ⟨100, 103, 250, 252, 252⟩ 101 251 false "claude-100-1" demoRequest

/-- C1 scenario, second call: the identical request re-sent 200ms later, far
within the 60s TTL, against the cache left by the first call. -/
def cacheDemoCall2 : CacheCallOutcome :=
  sendMessageWithCacheInterceptor demoCfg 60000 cacheDemoCall1.cache demoUpstream
    ⟨300, 303, 450, 452, 452⟩ 301 451 false "claude-300-2" demoRequest

/-- A cache hand-primed under the key `cache-check` actually derives for
`demoRequest`, fresh until epoch-ms 999999. -/
def primedCache : CacheMap :=
  [(getCacheKey demoRequest,
    ⟨{ id := "msg-0", content := ["hi there"], stop_reason := some "end_turn"
       usage := some ⟨1, 2⟩
       proxyMetrics := some ⟨"claude-1-1", 50, 10, 3, 3, 0, false, 0⟩ }, 999999⟩)]

/-- C1 scenario, a call that genuinely hits the primed cache. -/
def primedCall : CacheCallOutcome :=
  sendMessageWithCacheInterceptor demoCfg 60000 primedCache demoUpstream
    ⟨300, 303, 450, 452, 452⟩ 301 451 false "claude-300-1" demoRequest

/-- C2 scenario: a successful, non-streaming response to be stored. -/
def storeDemoResponse : ClaudeResponse :=
  { id := "msg-1", content := ["hello"], stop_reason := some "end_turn"
    usage := some ⟨12, 34⟩, proxyMetrics := none }

/-- The cache after the `cache-store` interceptor stores `storeDemoResponse`. -/
def storeDemoCache : CacheMap :=
  (cacheStoreExecute [] 1000 60000 false storeDemoResponse).1

/-- C6 scenario: a request violating the non-empty-messages invariant. -/
def emptyMessagesRequest : ClaudeRequest := { messages := [] }

/-- C6 scenario: an upstream that rejects every attempt with HTTP 400, as the
real API does for an empty messages array. -/
def rejectingUpstream : UpstreamParams → Nat → UpstreamOutcome :=
  fun _ _ => .err { message := "messages: at least one message is required", statusCode := some 400 }

/-- C6 scenario: `sendMessage` invoked directly on the invalid request. -/
def c6Run : SendOutcome :=
  sendMessage demoCfg [] [] rejectingUpstream ⟨100, 103, 250, 252, 252⟩
    "claude-100-1" emptyMessagesRequest

/-- C7 scenario: an interceptor whose failures the caller would like tolerated —
the interceptor contract has no field to mark it optional. -/
def failingOptionalInterceptor : RequestInterceptor :=
  { name := "optional-enrichment", execute := fun _ => .error { message := "enrichment failed" } }

/-- C7 scenario: a later interceptor that would run if the pipeline continued. -/
def taggingInterceptor : RequestInterceptor :=
  { name := "tagger", execute := fun r => .ok { r with metadata := [("tagged", "yes")] } }

/-- C7 scenario: the run with the failing interceptor ahead of the tagger. -/
def c7Run : SendOutcome :=
  sendMessage demoCfg [failingOptionalInterceptor, taggingInterceptor] [] demoUpstream
    ⟨100, 103, 250, 252, 252⟩ "claude-100-1" demoRequest

/-- C8 scenario: a response interceptor whose effect is observable in the result. -/
def responseTagger : ResponseInterceptor :=
  { name := "response-tagger", execute := fun r => .ok { r with id := r.id ++ "-tagged" } }

/-- C8 scenario: the proxy state when the call starts. -/
def c8State : ProxyState :=
  { requestInterceptors := [], responseInterceptors := [responseTagger], requestCount := 1 }

/-- C8 scenario: the call with no concurrent mutation. -/
def c8QuietRun : SendOutcome :=
  sendMessageInFlight demoCfg c8State .quiet demoUpstream
    ⟨100, 103, 250, 252, 252⟩ "claude-100-2" demoRequest

/-- C8 scenario: the same call with `removeInterceptor('response-tagger')`
interleaved while the call awaits the upstream response. -/
def c8RemovalRun : SendOutcome :=
  sendMessageInFlight demoCfg c8State (.removeBetweenPhases "response-tagger") demoUpstream
    ⟨100, 103, 250, 252, 252⟩ "claude-100-2" demoRequest

/-- C3/C4 scenario: an upstream failing with 429 once, then 400. -/
def mixedFailOracle : Nat → UpstreamOutcome :=
  fun i =>
    if i = 0 then .err { message := "rate limited", statusCode := some 429 }
    else .err { message := "bad request", statusCode := some 400 }

/-- C3 scenario: an upstream failing every attempt with 429. -/
def all429Oracle : Nat → UpstreamOutcome :=
  fun _ => .err { message := "rate limited", statusCode := some 429 }

/-- The retry options `sendMessage` builds from the default config. -/
def demoRetryOptions : RetryOptions :=
  { retries := 3, factor := 2, minTimeout := 1000, maxTimeout := 10000 }

/-- C4 scenario: a request naming a model that appears in no price table. -/
def unknownModelRequest : ClaudeRequest :=
  { messages := [⟨"user", "hi"⟩], model := some "gpt-4-unknown-model" }

/-- C4 scenario: the upstream answers with exactly one million tokens each way. -/
def millionTokenUpstream : UpstreamParams → Nat → UpstreamOutcome :=
  fun _ _ => .ok { id := "msg-2", content := ["big"], stop_reason := some "end_turn"
                   usage := some ⟨1000000, 1000000⟩ }

/-- C4 scenario: the run on the unknown model. -/
def c4Run : SendOutcome :=
  sendMessage demoCfg [] [] millionTokenUpstream ⟨100, 103, 250, 252, 252⟩
    "claude-100-1" unknownModelRequest

/-! ## Helper lemmas -/

/-- A successful first attempt settles the retry loop after exactly one attempt. -/
theorem pRetryAux_first_ok (opts : RetryOptions) (oracle : Nat → UpstreamOutcome)
    (fuel idx : Nat) (msg : UpstreamMessage) (h : oracle idx = .ok msg) :
    pRetryAux opts oracle fuel idx = ⟨.ok msg, 1, []⟩ := by
  unfold pRetryAux
  rw [h]
  rfl

/-- A non-retryable failure settles the retry loop immediately with an
`AbortError` carrying only the message. -/
theorem pRetryAux_abort (opts : RetryOptions) (oracle : Nat → UpstreamOutcome)
    (fuel idx : Nat) (e : JSError) (h : oracle idx = .err e)
    (hf : isRetryableStatus e.statusCode = false) :
    pRetryAux opts oracle fuel idx = ⟨.error { message := e.message }, 1, []⟩ := by
  unfold pRetryAux
  rw [h]
  simp [classifyAttempt, hf]

/-- A retryable failure with budget left waits and re-attempts. -/
theorem pRetryAux_retry_step (opts : RetryOptions) (oracle : Nat → UpstreamOutcome)
    (fuel idx : Nat) (e : JSError) (h : oracle idx = .err e)
    (ht : isRetryableStatus e.statusCode = true) :
    pRetryAux opts oracle (fuel + 1) idx =
      ⟨(pRetryAux opts oracle fuel (idx + 1)).result,
       (pRetryAux opts oracle fuel (idx + 1)).attempts + 1,
       backoffWait opts idx :: (pRetryAux opts oracle fuel (idx + 1)).waits⟩ := by
  conv_lhs => rw [pRetryAux]
  rw [h]
  simp [classifyAttempt, ht]

/-- A retryable failure with no budget left surfaces the annotated error. -/
theorem pRetryAux_retry_exhausted (opts : RetryOptions) (oracle : Nat → UpstreamOutcome)
    (idx : Nat) (e : JSError) (h : oracle idx = .err e)
    (ht : isRetryableStatus e.statusCode = true) :
    pRetryAux opts oracle 0 idx = ⟨.error { e with retryable := some true }, 1, []⟩ := by
  unfold pRetryAux
  rw [h]
  simp [classifyAttempt, ht]

/-- Every retry loop makes at least one upstream attempt. -/
theorem pRetryAux_attempts_pos (opts : RetryOptions) (oracle : Nat → UpstreamOutcome)
    (fuel idx : Nat) : 1 ≤ (pRetryAux opts oracle fuel idx).attempts := by
  rcases h : classifyAttempt (oracle idx) with m | e | m
  · unfold pRetryAux
    rw [h]
  · cases fuel with
    | zero =>
      unfold pRetryAux
      rw [h]
    | succ f =>
      unfold pRetryAux
      rw [h]
      exact Nat.le_add_left 1 _
  · unfold pRetryAux
    rw [h]

/-- The request pipeline over an appended list runs the first part, then the
second part from wherever the first ended. -/
theorem applyRequestInterceptors_append (l1 l2 : List RequestInterceptor) (r : ClaudeRequest) :
    applyRequestInterceptors (l1 ++ l2) r =
      match applyRequestInterceptors l1 r with
      | .ok r2 => applyRequestInterceptors l2 r2
      | .error e => .error e := by
  induction l1 generalizing r with
  | nil => simp [applyRequestInterceptors]
  | cons i rest ih =>
    simp only [List.cons_append, applyRequestInterceptors]
    cases h : i.execute r with
    | ok r2 => simp [h, ih]
    | error e => simp [h]

/-- The response pipeline over an appended list, likewise. -/
theorem applyResponseInterceptors_append (l1 l2 : List ResponseInterceptor) (r : ClaudeResponse) :
    applyResponseInterceptors (l1 ++ l2) r =
      match applyResponseInterceptors l1 r with
      | .ok r2 => applyResponseInterceptors l2 r2
      | .error e => .error e := by
  induction l1 generalizing r with
  | nil => simp [applyResponseInterceptors]
  | cons i rest ih =>
    simp only [List.cons_append, applyResponseInterceptors]
    cases h : i.execute r with
    | ok r2 => simp [h, ih]
    | error e => simp [h]

/-- A `sendMessage` with an empty request pipeline always contacts upstream. -/
theorem sendMessage_attempts_pos (cfg : ProxyConfig) (respIcpts : List ResponseInterceptor)
    (upstream : UpstreamParams → Nat → UpstreamOutcome) (clock : CallClock)
    (requestId : String) (request : ClaudeRequest) :
    1 ≤ (sendMessage cfg [] respIcpts upstream clock requestId request).upstreamAttempts := by
  have hpos := pRetryAux_attempts_pos
    { retries := cfg.maxRetries, factor := 2, minTimeout := 1000, maxTimeout := 10000 }
    (upstream (buildUpstreamParams cfg request)) cfg.maxRetries 0
  simp only [sendMessage, applyRequestInterceptors, pRetryRun]
  rcases hr : (pRetryAux { retries := cfg.maxRetries, factor := 2, minTimeout := 1000, maxTimeout := 10000 }
      (upstream (buildUpstreamParams cfg request)) cfg.maxRetries 0).result with e | msg
  · simpa [hr] using hpos
  · cases h2 : applyResponseInterceptors respIcpts
        (enhanceResponse cfg clock requestId msg) with
    | ok fin => simpa [hr, h2] using hpos
    | error e2 => simpa [hr, h2] using hpos

/-! ## Claims -/

/-- C10: the token-limit interceptor returns a request that differs from its
input at most in `max_tokens`: every other field is unchanged, and `max_tokens`
is clamped to the ceiling exactly when it is present and exceeds it. -/
theorem c10_token_limit_frame (maxTokens : Nat) (request : ClaudeRequest) :
    (tokenLimitExecute maxTokens request).messages = request.messages ∧
    (tokenLimitExecute maxTokens request).model = request.model ∧
    (tokenLimitExecute maxTokens request).temperature = request.temperature ∧
    (tokenLimitExecute maxTokens request).system = request.system ∧
    (tokenLimitExecute maxTokens request).metadata = request.metadata ∧
    (tokenLimitExecute maxTokens request).stream = request.stream ∧
    (tokenLimitExecute maxTokens request).max_tokens =
      (match request.max_tokens with
       | some m => if maxTokens < m then some maxTokens else some m
       | none => none) ∧
    (createTokenLimitInterceptor maxTokens).execute request =
      Except.ok (tokenLimitExecute maxTokens request) := by
  rcases hmt : request.max_tokens with _ | m
  · simp [tokenLimitExecute, createTokenLimitInterceptor, hmt]
  · by_cases h : m ≠ 0 ∧ maxTokens < m
    · simp [tokenLimitExecute, createTokenLimitInterceptor, hmt, h, h.2]
    · have hle : ¬ maxTokens < m := by omega
      simp [tokenLimitExecute, createTokenLimitInterceptor, hmt, h, hle]

/-- C5: with an empty interceptor chain and a first upstream attempt that
succeeds, `sendMessage` makes exactly one upstream call, and the reported
`overheadMs` is total elapsed time minus upstream latency, which is nonnegative
for monotone clock readings. -/
theorem c5_single_call_overhead (cfg : ProxyConfig)
    (upstream : UpstreamParams → Nat → UpstreamOutcome) (clock : CallClock)
    (requestId : String) (request : ClaudeRequest) (msg : UpstreamMessage)
    (hMetrics : cfg.enableMetrics = true)
    (h01 : clock.startTime ≤ clock.apiStartTime)
    (h12 : clock.apiStartTime ≤ clock.apiEndTime)
    (h23 : clock.apiEndTime ≤ clock.endTime)
    (hOk : upstream (buildUpstreamParams cfg request) 0 = .ok msg) :
    (sendMessage cfg [] [] upstream clock requestId request).upstreamAttempts = 1 ∧
    resultOverheadMs (sendMessage cfg [] [] upstream clock requestId request).result =
      some (((clock.endTime : Int) - clock.startTime)
        - ((clock.apiEndTime : Int) - clock.apiStartTime)) ∧
    0 ≤ ((clock.endTime : Int) - clock.startTime)
        - ((clock.apiEndTime : Int) - clock.apiStartTime) := by
  have hrun := pRetryAux_first_ok
    { retries := cfg.maxRetries, factor := 2, minTimeout := 1000, maxTimeout := 10000 }
    (upstream (buildUpstreamParams cfg request)) cfg.maxRetries 0 msg hOk
  refine ⟨?_, ?_, ?_⟩
  · simp [sendMessage, applyRequestInterceptors, pRetryRun, hrun, applyResponseInterceptors]
  · simp [sendMessage, applyRequestInterceptors, pRetryRun, hrun, applyResponseInterceptors,
      enhanceResponse, resultOverheadMs, hMetrics]
  · omega

/-- C5 witness: a concrete monotone clock; overhead is `(252-100) - (250-103) = 5 ≥ 0`. -/
theorem c5_witness :
    (sendMessage demoCfg [] [] demoUpstream ⟨100, 103, 250, 252, 252⟩ "claude-100-1"
      demoRequest).upstreamAttempts = 1 ∧
    resultOverheadMs (sendMessage demoCfg [] [] demoUpstream ⟨100, 103, 250, 252, 252⟩
      "claude-100-1" demoRequest).result = some 5 := by
  obtain ⟨h1, h2, h3⟩ := c5_single_call_overhead demoCfg demoUpstream ⟨100, 103, 250, 252, 252⟩
    "claude-100-1" demoRequest demoMsg rfl (by decide) (by decide) (by decide) rfl
  exact ⟨h1, by simpa using h2⟩

/-- C4 counterexample: for a model in no price table (`gpt-4-unknown-model`) and
usage of one million tokens each way, the computed cost is `18`, not the claimed
sentinel `0` — `calculateCost` ignores the model entirely. -/
theorem c4_counterexample :
    resultCost c4Run.result = some 18 ∧ (18 : ℚ) ≠ 0 := by
  constructor
  · have h : resultCost c4Run.result = some (calculateCost (some ⟨1000000, 1000000⟩)) := rfl
    rw [h]
    norm_num [calculateCost]
  · norm_num

/-- C4 as amended: cost is computed from usage alone with the hard-coded Claude 3
Sonnet prices ($3/$15 per million input/output tokens) — `18` for a
million-token pair, `0` only when usage is absent — and the computed cost never
depends on the request's model, so no model makes the call fail. -/
theorem c4_cost_model_blind :
    calculateCost none = 0 ∧
    calculateCost (some ⟨1000000, 1000000⟩) = 18 ∧
    (∀ u : Usage, calculateCost (some u) =
      (u.input_tokens : ℚ) / 1000000 * 3 + (u.output_tokens : ℚ) / 1000000 * 15) ∧
    (∀ (cfg : ProxyConfig) (upstream : Nat → UpstreamOutcome) (clock : CallClock)
       (requestId : String) (request : ClaudeRequest) (m1 m2 : Option String),
      resultCost (sendMessage cfg [] [] (fun _ => upstream) clock requestId
        { request with model := m1 }).result =
      resultCost (sendMessage cfg [] [] (fun _ => upstream) clock requestId
        { request with model := m2 }).result) := by
  exact ⟨rfl, by norm_num [calculateCost], fun u => rfl,
    fun cfg upstream clock requestId request m1 m2 => rfl⟩

/-- C6 counterexample: `sendMessage` called directly with an empty messages list
performs an upstream attempt (the claim says none must happen) and surfaces the
upstream rejection — there is no validation step in the proxy. -/
theorem c6_counterexample :
    c6Run.upstreamAttempts = 1 ∧
    resultErrMessage c6Run.result = some "messages: at least one message is required" := by
  exact ⟨by decide, by decide⟩

/-- C6 as amended: the empty-messages invariant is enforced by the HTTP route,
which answers 400 without contacting the proxy; `sendMessage` itself performs no
validation and always makes at least one upstream attempt even for an empty
messages list. -/
theorem c6_route_validates_not_proxy (cfg : ProxyConfig)
    (reqIcpts : List RequestInterceptor) (respIcpts : List ResponseInterceptor)
    (upstream : UpstreamParams → Nat → UpstreamOutcome) (clock : CallClock)
    (requestId : String) (request : ClaudeRequest)
    (h : request.messages = []) :
    (messageRoute cfg reqIcpts respIcpts upstream clock requestId request).2 = 0 ∧
    (messageRoute cfg reqIcpts respIcpts upstream clock requestId request).1 =
      RouteResult.badRequest "Invalid request" "Messages array is required" ∧
    1 ≤ (sendMessage cfg [] [] upstream clock requestId request).upstreamAttempts := by
  have hempty : request.messages.isEmpty = true := by simp [h]
  exact ⟨by simp [messageRoute, hempty], by simp [messageRoute, hempty],
    sendMessage_attempts_pos cfg [] upstream clock requestId request⟩

/-- C6 witness: the concrete empty-messages request is rejected by the route with
no upstream contact, while a direct proxy call does contact upstream. -/
theorem c6_witness :
    (messageRoute demoCfg [] [] rejectingUpstream ⟨100, 103, 250, 252, 252⟩ "claude-100-1"
      emptyMessagesRequest).2 = 0 ∧
    1 ≤ (sendMessage demoCfg [] [] rejectingUpstream ⟨100, 103, 250, 252, 252⟩ "claude-100-1"
      emptyMessagesRequest).upstreamAttempts := by
  obtain ⟨h1, h2, h3⟩ := c6_route_validates_not_proxy demoCfg [] [] rejectingUpstream
    ⟨100, 103, 250, 252, 252⟩ "claude-100-1" emptyMessagesRequest rfl
  exact ⟨h1, h3⟩

/-- C7 counterexample: an always-failing interceptor — named as the optional
enrichment the spec describes, there being no way to mark one optional — aborts
the whole call: the pipeline does not continue, the later interceptor never
runs, upstream is never contacted, and the call fails. -/
theorem c7_counterexample :
    resultErrMessage c7Run.result = some "enrichment failed" ∧
    c7Run.upstreamAttempts = 0 ∧
    resultId c7Run.result = none := by
  exact ⟨by decide, by decide, by decide⟩

/-- C7 as amended: the interceptor contract has no optional marking, and every
interceptor failure is fatal: a failing request interceptor aborts the rest of
the pipeline and the upstream call, surfacing its error annotated with the
request id; a failing response interceptor likewise aborts the rest of the
response pipeline. -/
theorem c7_interceptor_failures_always_fatal
    (cfg : ProxyConfig) (pre post : List RequestInterceptor) (icpt : RequestInterceptor)
    (respIcpts : List ResponseInterceptor)
    (upstream : UpstreamParams → Nat → UpstreamOutcome) (clock : CallClock)
    (requestId : String) (request r : ClaudeRequest) (e : JSError)
    (hpre : applyRequestInterceptors pre request = .ok r)
    (hfail : icpt.execute r = .error e) :
    sendMessage cfg (pre ++ icpt :: post) respIcpts upstream clock requestId request =
      ⟨.error { e with requestId := some requestId }, 0, []⟩ ∧
    (∀ (pre2 post2 : List ResponseInterceptor) (icpt2 : ResponseInterceptor)
       (resp r2 : ClaudeResponse) (e2 : JSError),
      applyResponseInterceptors pre2 resp = .ok r2 →
      icpt2.execute r2 = .error e2 →
      applyResponseInterceptors (pre2 ++ icpt2 :: post2) resp = .error e2) := by
  constructor
  · have habort : applyRequestInterceptors (pre ++ icpt :: post) request = .error e := by
      rw [applyRequestInterceptors_append, hpre]
      simp [applyRequestInterceptors, hfail]
    simp [sendMessage, habort]
  · intro pre2 post2 icpt2 resp r2 e2 hpre2 hfail2
    rw [applyResponseInterceptors_append, hpre2]
    simp [applyResponseInterceptors, hfail2]

/-- C7 witness: the concrete failing pipeline from the counterexample scenario,
via the general theorem. -/
theorem c7_witness :
    sendMessage demoCfg ([] ++ failingOptionalInterceptor :: [taggingInterceptor]) []
      demoUpstream ⟨100, 103, 250, 252, 252⟩ "claude-100-1" demoRequest =
      ⟨.error { message := "enrichment failed", requestId := some "claude-100-1" }, 0, []⟩ := by
  exact (c7_interceptor_failures_always_fatal demoCfg [] [taggingInterceptor]
    failingOptionalInterceptor [] demoUpstream ⟨100, 103, 250, 252, 252⟩ "claude-100-1"
    demoRequest demoRequest { message := "enrichment failed" } rfl rfl).1

/-- Retryable failures up to a fatal attempt `k` (within budget): the loop stops
right at the fatal attempt, surfacing its message, after `k` backoff waits. -/
theorem pRetryAux_fatal_run (opts : RetryOptions) (oracle : Nat → UpstreamOutcome) :
    ∀ (k fuel idx : Nat), k ≤ fuel →
      (∀ i, i < k → isRetryableErrOutcome (oracle (idx + i)) = true) →
      isFatalErrOutcome (oracle (idx + k)) = true →
      (pRetryAux opts oracle fuel idx).attempts = k + 1 ∧
      runErrMessage (pRetryAux opts oracle fuel idx).result = outcomeErrMessage (oracle (idx + k)) ∧
      (pRetryAux opts oracle fuel idx).waits =
        (List.range k).map (fun i => backoffWait opts (idx + i)) := by
  intro k
  induction k with
  | zero =>
    intro fuel idx hk hret hfat
    rw [Nat.add_zero] at hfat
    rcases ho : oracle idx with m | e
    · rw [ho] at hfat
      simp [isFatalErrOutcome] at hfat
    · have hf : isRetryableStatus e.statusCode = false := by
        rw [ho] at hfat
        simpa [isFatalErrOutcome] using hfat
      rw [pRetryAux_abort opts oracle fuel idx e ho hf]
      simp [runErrMessage, outcomeErrMessage, ho]
  | succ k ih =>
    intro fuel idx hk hret hfat
    have h0 := hret 0 (Nat.succ_pos k)
    rw [Nat.add_zero] at h0
    rcases ho : oracle idx with m | e
    · rw [ho] at h0
      simp [isRetryableErrOutcome] at h0
    · have ht : isRetryableStatus e.statusCode = true := by
        rw [ho] at h0
        simpa [isRetryableErrOutcome] using h0
      obtain ⟨f, rfl⟩ : ∃ f, fuel = f + 1 := by
        cases fuel with
        | zero => omega
        | succ f => exact ⟨f, rfl⟩
      rw [pRetryAux_retry_step opts oracle f idx e ho ht]
      obtain ⟨ha, hm, hw⟩ := ih f (idx + 1) (by omega)
        (fun i hi => by
          have hh := hret (i + 1) (by omega)
          rw [show idx + (i + 1) = idx + 1 + i by omega] at hh
          exact hh)
        (by
          rw [show idx + 1 + k = idx + (k + 1) by omega]
          exact hfat)
      refine ⟨by simp [ha], ?_, ?_⟩
      · simp only [runErrMessage] at hm ⊢
        rw [show idx + (k + 1) = idx + 1 + k by omega]
        exact hm
      · simp only [hw, List.range_succ_eq_map, List.map_cons, List.map_map]
        refine congrArg₂ _ (by simp) ?_
        refine List.map_congr_left (fun i hi => ?_)
        simp only [Function.comp]
        exact congrArg _ (by omega)

/-- All attempts retryable: the loop exhausts its budget, making `fuel + 1`
attempts with the corresponding backoff waits, and surfaces the last error
annotated `retryable := true`. -/
theorem pRetryAux_exhaust_run (opts : RetryOptions) (oracle : Nat → UpstreamOutcome) :
    ∀ (fuel idx : Nat),
      (∀ i, i ≤ fuel → isRetryableErrOutcome (oracle (idx + i)) = true) →
      (pRetryAux opts oracle fuel idx).attempts = fuel + 1 ∧
      runErr (pRetryAux opts oracle fuel idx).result =
        (outcomeErr (oracle (idx + fuel))).map (fun e => { e with retryable := some true }) ∧
      (pRetryAux opts oracle fuel idx).waits =
        (List.range fuel).map (fun i => backoffWait opts (idx + i)) := by
  intro fuel
  induction fuel with
  | zero =>
    intro idx h
    have h0 := h 0 le_rfl
    rw [Nat.add_zero] at h0
    rcases ho : oracle idx with m | e
    · rw [ho] at h0
      simp [isRetryableErrOutcome] at h0
    · have ht : isRetryableStatus e.statusCode = true := by
        rw [ho] at h0
        simpa [isRetryableErrOutcome] using h0
      rw [pRetryAux_retry_exhausted opts oracle idx e ho ht]
      simp [runErr, outcomeErr, ho]
  | succ f ih =>
    intro idx h
    have h0 := h 0 (Nat.zero_le _)
    rw [Nat.add_zero] at h0
    rcases ho : oracle idx with m | e
    · rw [ho] at h0
      simp [isRetryableErrOutcome] at h0
    · have ht : isRetryableStatus e.statusCode = true := by
        rw [ho] at h0
        simpa [isRetryableErrOutcome] using h0
      rw [pRetryAux_retry_step opts oracle f idx e ho ht]
      obtain ⟨ha, hm, hw⟩ := ih (idx + 1)
        (fun i hi => by
          have hh := h (i + 1) (by omega)
          rw [show idx + (i + 1) = idx + 1 + i by omega] at hh
          exact hh)
      refine ⟨by simp [ha], ?_, ?_⟩
      · simp only [runErr] at hm ⊢
        rw [show idx + (f + 1) = idx + 1 + f by omega]
        exact hm
      · simp only [hw, List.range_succ_eq_map, List.map_cons, List.map_map]
        refine congrArg₂ _ (by simp) ?_
        refine List.map_congr_left (fun i hi => ?_)
        simp only [Function.comp]
        exact congrArg _ (by omega)

/-- C3: the catch block classifies exactly {429, 500, 502, 503, 504} retryable;
the defaulted config allows 3 retries; the wait after failed attempt `a` is
`min(maxTimeout, minTimeout * factor^a)`; a run of retryable failures ended by a
fatal status stops right there without consuming further budget; all-retryable
failures exhaust the budget (`retries + 1` attempts) and `sendMessage` surfaces
the last upstream error, annotated retryable and with the request id. -/
theorem c3_retry_policy :
    retryableStatusCodes = [429, 500, 502, 503, 504] ∧
    (∀ c : Nat, isRetryableStatus (some c) = retryableStatusCodes.contains c) ∧
    (mkProxyConfig { apiKey := "k" }).maxRetries = 3 ∧
    (∀ (opts : RetryOptions) (attempt : Nat),
      backoffWait opts attempt = min opts.maxTimeout (opts.minTimeout * opts.factor ^ attempt)) ∧
    (∀ (opts : RetryOptions) (oracle : Nat → UpstreamOutcome) (k : Nat), k ≤ opts.retries →
      (∀ i, i < k → isRetryableErrOutcome (oracle i) = true) →
      isFatalErrOutcome (oracle k) = true →
      (pRetryRun opts oracle).attempts = k + 1 ∧
      runErrMessage (pRetryRun opts oracle).result = outcomeErrMessage (oracle k) ∧
      (pRetryRun opts oracle).waits = (List.range k).map (backoffWait opts)) ∧
    (∀ (opts : RetryOptions) (oracle : Nat → UpstreamOutcome),
      (∀ i, i ≤ opts.retries → isRetryableErrOutcome (oracle i) = true) →
      (pRetryRun opts oracle).attempts = opts.retries + 1 ∧
      runErr (pRetryRun opts oracle).result =
        (outcomeErr (oracle opts.retries)).map (fun e => { e with retryable := some true }) ∧
      (pRetryRun opts oracle).waits = (List.range opts.retries).map (backoffWait opts)) ∧
    (∀ (cfg : ProxyConfig) (upstream : UpstreamParams → Nat → UpstreamOutcome)
       (clock : CallClock) (requestId : String) (request : ClaudeRequest),
      (∀ i, i ≤ cfg.maxRetries →
        isRetryableErrOutcome (upstream (buildUpstreamParams cfg request) i) = true) →
      resultErr (sendMessage cfg [] [] upstream clock requestId request).result =
        (outcomeErr (upstream (buildUpstreamParams cfg request) cfg.maxRetries)).map
          (fun e => { e with retryable := some true, requestId := some requestId }) ∧
      (sendMessage cfg [] [] upstream clock requestId request).upstreamAttempts =
        cfg.maxRetries + 1) := by
  refine ⟨rfl, ?_, rfl, ?_, ?_, ?_, ?_⟩
  · intro c
    rcases Nat.eq_zero_or_pos c with hc | hc
    · subst hc
      decide
    · simp [isRetryableStatus, Nat.pos_iff_ne_zero.mp hc]
  · intro opts attempt
    exact Nat.min_comm _ _
  · intro opts oracle k hk hret hfat
    have := pRetryAux_fatal_run opts oracle k opts.retries 0 hk
      (fun i hi => by simpa using hret i hi) (by simpa using hfat)
    simpa [pRetryRun] using this
  · intro opts oracle hall
    have := pRetryAux_exhaust_run opts oracle opts.retries 0
      (fun i hi => by simpa using hall i hi)
    simpa [pRetryRun] using this
  · intro cfg upstream clock requestId request hall
    have hrun := pRetryAux_exhaust_run
      { retries := cfg.maxRetries, factor := 2, minTimeout := 1000, maxTimeout := 10000 }
      (upstream (buildUpstreamParams cfg request)) cfg.maxRetries 0
      (fun i hi => by simpa using hall i hi)
    obtain ⟨ha, hm, _⟩ := hrun
    simp only [Nat.zero_add] at hm
    have hlast := hall cfg.maxRetries le_rfl
    rcases hoc : upstream (buildUpstreamParams cfg request) cfg.maxRetries with m | eup
    · rw [hoc] at hlast
      simp [isRetryableErrOutcome] at hlast
    · rw [hoc] at hm
      rcases hr : (pRetryAux
          { retries := cfg.maxRetries, factor := 2, minTimeout := 1000, maxTimeout := 10000 }
          (upstream (buildUpstreamParams cfg request)) cfg.maxRetries 0).result with e' | msg
      · rw [hr] at hm
        simp only [runErr, outcomeErr, Option.map_some] at hm
        have he' : e' = { eup with retryable := some true } := by
          exact Option.some.inj hm
        subst he'
        constructor
        · simp [sendMessage, applyRequestInterceptors, pRetryRun, hr, hoc, resultErr,
            outcomeErr]
        · simp [sendMessage, applyRequestInterceptors, pRetryRun, hr, ha]
      · rw [hr] at hm
        simp [runErr, outcomeErr] at hm

/-- C3 witness: with default options, a 429 followed by a 400 stops after the
second attempt; all-429 failures make four attempts with waits 1s, 2s, 4s. -/
theorem c3_witness :
    (pRetryRun demoRetryOptions mixedFailOracle).attempts = 1 + 1 ∧
    (pRetryRun demoRetryOptions all429Oracle).attempts = 3 + 1 ∧
    (pRetryRun demoRetryOptions all429Oracle).waits =
      (List.range 3).map (backoffWait demoRetryOptions) ∧
    (List.range 3).map (backoffWait demoRetryOptions) = [1000, 2000, 4000] := by
  obtain ⟨_, _, _, _, hfatal, hexhaust, _⟩ := c3_retry_policy
  obtain ⟨ha1, _, _⟩ := hfatal demoRetryOptions mixedFailOracle 1 (by decide)
    (fun i hi => by
      have : i = 0 := by omega
      subst this
      decide)
    (by decide)
  obtain ⟨ha2, _, hw2⟩ := hexhaust demoRetryOptions all429Oracle (fun i _ => rfl)
  exact ⟨ha1, ha2, hw2, by decide⟩

/-- C1: with the cache interceptor pair installed, the second identical call
within the TTL still makes an upstream attempt and reports `cacheHit = false`
(the store used the constant placeholder key, so the lookup misses); and on a
genuine hit (cache primed under the derived key) the internal `CACHE_HIT` signal
escapes to the caller as an error instead of a successful response — the catch
block rethrows it. -/
theorem c1_cache_hit_never_served :
    cacheDemoCall2.upstreamAttempts = 1 ∧
    resultCacheHit cacheDemoCall2.result = some false ∧
    mapGet cacheDemoCall1.cache (getCacheKey demoRequest) = none ∧
    resultErrMessage primedCall.result = some "CACHE_HIT" ∧
    primedCall.upstreamAttempts = 0 := by
  exact ⟨by decide, by decide, by decide, by decide, by decide⟩

/-- C2: the cache-store interceptor stores a successful, non-streaming response
under the constant `placeholder-key`, which differs from the key the cache-check
interceptor derives for the identical request, so the later lookup misses;
`stop_sequence` responses are indeed never stored. -/
theorem c2_store_key_mismatch :
    List.map (fun kv => kv.1) storeDemoCache = ["placeholder-key"] ∧
    getCacheKey demoRequest ≠ "placeholder-key" ∧
    mapGet storeDemoCache (getCacheKey demoRequest) = none ∧
    (cacheStoreExecute [] 1000 60000 false
      { storeDemoResponse with stop_reason := some "stop_sequence" }).1 = [] := by
  exact ⟨by decide, by decide, by decide, rfl⟩

/-- C8 counterexample: removing the response interceptor while the call awaits
upstream changes that same call's result — the response pipeline reads the live
list, so the in-flight call loses the tagger's effect. -/
theorem c8_counterexample :
    resultId c8QuietRun.result = some "msg-1-tagged" ∧
    resultId c8RemovalRun.result = some "msg-1" ∧
    c8RemovalRun.result ≠ c8QuietRun.result := by
  refine ⟨by decide, by decide, ?_⟩
  intro h
  have h2 := congrArg resultId h
  rw [show resultId c8RemovalRun.result = some "msg-1" from by decide,
    show resultId c8QuietRun.result = some "msg-1-tagged" from by decide] at h2
  exact absurd h2 (by decide)

/-- C8 as amended: each pipeline phase reads the interceptor list as of the
moment the phase starts: a mid-flight removal behaves exactly as if the response
pipeline had been the filtered list all along, and it leaves the in-flight
call's behavior unchanged precisely when the removed name is not among its
response interceptors. -/
theorem c8_removal_affects_response_phase (cfg : ProxyConfig) (st : ProxyState)
    (name : String) (upstream : UpstreamParams → Nat → UpstreamOutcome)
    (clock : CallClock) (requestId : String) (request : ClaudeRequest)
    (h : ∀ i ∈ st.responseInterceptors, i.name ≠ name) :
    sendMessageInFlight cfg st (.removeBetweenPhases name) upstream clock requestId request =
      sendMessageInFlight cfg
        { st with responseInterceptors :=
            st.responseInterceptors.filter (fun i => i.name != name) }
        .quiet upstream clock requestId request ∧
    sendMessageInFlight cfg st (.removeBetweenPhases name) upstream clock requestId request =
      sendMessageInFlight cfg st .quiet upstream clock requestId request := by
  have hfilter : st.responseInterceptors.filter (fun i => i.name != name) =
      st.responseInterceptors := by
    apply List.filter_eq_self.mpr
    intro i hi
    simpa using h i hi
  constructor
  · rfl
  · show sendMessageInFlight cfg st (.removeBetweenPhases name) upstream clock requestId request =
      sendMessageInFlight cfg st .quiet upstream clock requestId request
    simp only [sendMessageInFlight, removeInterceptor, hfilter]

/-- C8 witness: removing a name that is not installed leaves the in-flight
call's outcome unchanged. -/
theorem c8_witness :
    sendMessageInFlight demoCfg c8State (.removeBetweenPhases "not-installed") demoUpstream
      ⟨100, 103, 250, 252, 252⟩ "claude-100-2" demoRequest =
    sendMessageInFlight demoCfg c8State .quiet demoUpstream
      ⟨100, 103, 250, 252, 252⟩ "claude-100-2" demoRequest := by
  exact (c8_removal_affects_response_phase demoCfg c8State "not-installed" demoUpstream
    ⟨100, 103, 250, 252, 252⟩ "claude-100-2" demoRequest (by decide)).2

/-- The function `Nat.digitChar` never yields a dash. -/
theorem digitChar_ne_dash (n : Nat) : Nat.digitChar n ≠ '-' := by
  by_cases h16 : n < 16
  · interval_cases n <;> decide
  · unfold Nat.digitChar
    repeat rw [if_neg (by omega)]
    decide

/-- The function `Nat.toDigitsCore` only ever prepends digit characters, so a dash-free
accumulator stays dash-free. -/
theorem toDigitsCore_ne_dash (b : Nat) :
    ∀ (fuel n : Nat) (acc : List Char), (∀ c ∈ acc, c ≠ '-') →
      ∀ c ∈ Nat.toDigitsCore b fuel n acc, c ≠ '-' := by
  intro fuel
  induction fuel with
  | zero =>
    intro n acc hacc c hc
    simp only [Nat.toDigitsCore] at hc
    exact hacc c hc
  | succ f ih =>
    intro n acc hacc c hc
    simp only [Nat.toDigitsCore] at hc
    by_cases h : n / b = 0
    · rw [if_pos h] at hc
      rcases List.mem_cons.mp hc with h1 | h2
      · subst h1
        exact digitChar_ne_dash _
      · exact hacc c h2
    · rw [if_neg h] at hc
      refine ih (n / b) (Nat.digitChar (n % b) :: acc) ?_ c hc
      intro d hd
      rcases List.mem_cons.mp hd with h1 | h2
      · subst h1
        exact digitChar_ne_dash _
      · exact hacc d h2

/-- The decimal representation of a natural number contains no dash. -/
theorem repr_data_ne_dash (n : Nat) : ∀ c ∈ (Nat.repr n).data, c ≠ '-' := by
  intro c hc
  have hd : (Nat.repr n).data = Nat.toDigitsCore 10 (n + 1) n [] := rfl
  rw [hd] at hc
  exact toDigitsCore_ne_dash 10 (n + 1) n [] (by intro d hd2; simp at hd2) c hc

/-- Folding the decimal-value accumulator from an arbitrary start. -/
theorem digitsFoldl_shift (l : List Char) : ∀ a : Nat,
    List.foldl (fun acc c => 10 * acc + charToDigit c) a l =
      a * 10 ^ l.length + digitsToNat l := by
  induction l with
  | nil => intro a; simp [digitsToNat]
  | cons c l ih =>
    intro a
    simp only [List.foldl_cons, List.length_cons, digitsToNat]
    rw [ih (10 * a + charToDigit c), ih (10 * 0 + charToDigit c)]
    ring

/-- Reading back a digit character below the base. -/
theorem charToDigit_digitChar (m : Nat) (h : m < 10) :
    charToDigit (Nat.digitChar m) = m := by
  interval_cases m <;> decide

/-- The function `Nat.toDigitsCore` (with enough fuel) prepends exactly the decimal digits of
`n`: parsing the result recovers `n` shifted over the old accumulator. -/
theorem toDigitsCore_val : ∀ (fuel n : Nat) (ds : List Char), n ≤ fuel →
    digitsToNat (Nat.toDigitsCore 10 (fuel + 1) n ds) =
      n * 10 ^ ds.length + digitsToNat ds := by
  intro fuel
  induction fuel with
  | zero =>
    intro n ds hn
    have h0 : n = 0 := Nat.le_zero.mp hn
    subst h0
    have hstep : Nat.toDigitsCore 10 1 0 ds = Nat.digitChar (0 % 10) :: ds := by
      simp [Nat.toDigitsCore]
    rw [hstep]
    simp only [digitsToNat, List.foldl_cons]
    rw [digitsFoldl_shift]
    have hd : charToDigit (Nat.digitChar (0 % 10)) = 0 := by decide
    rw [hd]
    simp [digitsToNat]
  | succ f ih =>
    intro n ds hn
    by_cases h : n / 10 = 0
    · have hstep : Nat.toDigitsCore 10 (f + 1 + 1) n ds = Nat.digitChar (n % 10) :: ds := by
        simp [Nat.toDigitsCore, h]
      rw [hstep]
      simp only [digitsToNat, List.foldl_cons]
      rw [digitsFoldl_shift, charToDigit_digitChar (n % 10) (by omega)]
      have hmod : n % 10 = n := by omega
      rw [hmod]
      simp [digitsToNat]
    · have hstep : Nat.toDigitsCore 10 (f + 1 + 1) n ds =
          Nat.toDigitsCore 10 (f + 1) (n / 10) (Nat.digitChar (n % 10) :: ds) := by
        simp [Nat.toDigitsCore, h]
      rw [hstep]
      have hle : n / 10 ≤ f := by omega
      rw [ih (n / 10) (Nat.digitChar (n % 10) :: ds) hle]
      simp only [List.length_cons]
      have hinner : digitsToNat (Nat.digitChar (n % 10) :: ds) =
          (n % 10) * 10 ^ ds.length + digitsToNat ds := by
        simp only [digitsToNat, List.foldl_cons]
        rw [digitsFoldl_shift, charToDigit_digitChar (n % 10) (by omega)]
        simp [digitsToNat]
      rw [hinner]
      have hdm : 10 * (n / 10) + n % 10 = n := Nat.div_add_mod n 10
      calc n / 10 * 10 ^ (ds.length + 1) + ((n % 10) * 10 ^ ds.length + digitsToNat ds)
          = (10 * (n / 10) + n % 10) * 10 ^ ds.length + digitsToNat ds := by ring
        _ = n * 10 ^ ds.length + digitsToNat ds := by rw [hdm]

/-- Parsing the decimal representation of `n` recovers `n`. -/
theorem digitsToNat_repr (n : Nat) : digitsToNat (Nat.repr n).data = n := by
  have hd : (Nat.repr n).data = Nat.toDigitsCore 10 (n + 1) n [] := rfl
  rw [hd]
  have hv := toDigitsCore_val n n [] le_rfl
  simpa [digitsToNat] using hv

/-- Splitting at the only dash: if the left parts are dash-free, both sides of
the separator agree. -/
theorem append_dash_cancel :
    ∀ (a1 a2 b1 b2 : List Char), (∀ c ∈ a1, c ≠ '-') → (∀ c ∈ a2, c ≠ '-') →
      a1 ++ '-' :: b1 = a2 ++ '-' :: b2 → a1 = a2 ∧ b1 = b2 := by
  intro a1
  induction a1 with
  | nil =>
    intro a2 b1 b2 h1 h2 heq
    cases a2 with
    | nil => simpa using heq
    | cons x xs =>
      simp only [List.nil_append, List.cons_append, List.cons_eq_cons] at heq
      exact absurd heq.1.symm (h2 x (List.mem_cons_self x xs))
  | cons y ys ih =>
    intro a2 b1 b2 h1 h2 heq
    cases a2 with
    | nil =>
      simp only [List.nil_append, List.cons_append, List.cons_eq_cons] at heq
      exact absurd heq.1 (h1 y (List.mem_cons_self y ys))
    | cons x xs =>
      simp only [List.cons_append, List.cons_eq_cons] at heq
      obtain ⟨hxs, hb⟩ := ih xs b1 b2 (fun c hc => h1 c (List.mem_cons_of_mem y hc))
        (fun c hc => h2 c (List.mem_cons_of_mem x hc)) heq.2
      exact ⟨by rw [heq.1, hxs], hb⟩

/-- The character data of a generated request id, split at its separators. -/
theorem generateRequestId_data (t c : Nat) :
    (generateRequestId t c).data =
      "claude-".data ++ ((Nat.repr t).data ++ '-' :: (Nat.repr c).data) := by
  have hdash : ("-" : String).data = ['-'] := rfl
  simp [generateRequestId, String.data_append, hdash, List.append_assoc]

/-- Two generated ids agree only when both the timestamp and the counter agree:
the decimal components are dash-free, so the id determines its parts. -/
theorem generateRequestId_inj {t1 c1 t2 c2 : Nat}
    (h : generateRequestId t1 c1 = generateRequestId t2 c2) : t1 = t2 ∧ c1 = c2 := by
  have hdata := congrArg String.data h
  rw [generateRequestId_data, generateRequestId_data] at hdata
  have hcancel := List.append_cancel_left hdata
  obtain ⟨hT, hC⟩ := append_dash_cancel (Nat.repr t1).data (Nat.repr t2).data
    (Nat.repr c1).data (Nat.repr c2).data (repr_data_ne_dash t1) (repr_data_ne_dash t2) hcancel
  constructor
  · have := congrArg digitsToNat hT
    rwa [digitsToNat_repr, digitsToNat_repr] at this
  · have := congrArg digitsToNat hC
    rwa [digitsToNat_repr, digitsToNat_repr] at this

/-- The counter is incremented exactly once per call. -/
theorem runIdGeneration_count (ts : List Nat) : ∀ c : Nat,
    (runIdGeneration ts c).2 = c + ts.length := by
  induction ts with
  | nil => intro c; simp [runIdGeneration]
  | cons t ts ih =>
    intro c
    simp only [runIdGeneration, ih (c + 1), List.length_cons]
    omega

/-- The `i`-th call's id embeds the counter value `c + i + 1`. -/
theorem runIdGeneration_get (ts : List Nat) : ∀ (c i : Nat) (h : i < ts.length),
    ((runIdGeneration ts c).1).get? i =
      some (generateRequestId (ts.get ⟨i, h⟩) (c + i + 1)) := by
  induction ts with
  | nil =>
    intro c i h
    simp at h
  | cons t ts ih =>
    intro c i h
    cases i with
    | zero => simp [runIdGeneration]
    | succ i =>
      simp only [runIdGeneration, List.get?_cons_succ, List.get_cons_succ]
      rw [ih (c + 1) i (by simpa using h)]
      refine congrArg _ (congrArg _ ?_)
      omega

/-- Every id generated after counter value `c` embeds a counter above `c`. -/
theorem runIdGeneration_mem (ts : List Nat) : ∀ (c : Nat) (x : String),
    x ∈ (runIdGeneration ts c).1 → ∃ t' c', c < c' ∧ x = generateRequestId t' c' := by
  induction ts with
  | nil =>
    intro c x hx
    simp [runIdGeneration] at hx
  | cons t ts ih =>
    intro c x hx
    simp only [runIdGeneration] at hx
    rcases List.mem_cons.mp hx with h1 | h2
    · exact ⟨t, c + 1, Nat.lt_succ_self c, h1⟩
    · obtain ⟨t', c', hc, hx'⟩ := ih (c + 1) x h2
      exact ⟨t', c', by omega, hx'⟩

/-- All generated ids are pairwise distinct. -/
theorem runIdGeneration_pairwise (ts : List Nat) : ∀ c : Nat,
    ((runIdGeneration ts c).1).Pairwise (fun a b => a ≠ b) := by
  induction ts with
  | nil => intro c; simp [runIdGeneration]
  | cons t ts ih =>
    intro c
    simp only [runIdGeneration]
    refine List.Pairwise.cons ?_ (ih (c + 1))
    intro y hy heq
    obtain ⟨t', c', hc, hy'⟩ := runIdGeneration_mem ts (c + 1) y hy
    subst hy'
    obtain ⟨-, hcc⟩ := generateRequestId_inj heq
    omega

/-- C9: across a sequence of `sendMessage` calls on one proxy instance, the call
counter is incremented exactly once per call, the `i`-th id embeds the strictly
increasing counter value `c + i + 1`, all generated ids are pairwise distinct,
and ids collide only when both the wall-clock and counter components agree. -/
theorem c9_request_ids_unique (ts : List Nat) (c : Nat) :
    (runIdGeneration ts c).2 = c + ts.length ∧
    (∀ (i : Nat) (h : i < ts.length),
      ((runIdGeneration ts c).1).get? i =
        some (generateRequestId (ts.get ⟨i, h⟩) (c + i + 1))) ∧
    ((runIdGeneration ts c).1).Pairwise (fun a b => a ≠ b) ∧
    (∀ t1 c1 t2 c2 : Nat,
      generateRequestId t1 c1 = generateRequestId t2 c2 → t1 = t2 ∧ c1 = c2) := by
  exact ⟨runIdGeneration_count ts c, runIdGeneration_get ts c,
    runIdGeneration_pairwise ts c, fun t1 c1 t2 c2 h => generateRequestId_inj h⟩

/-- C9 witness: three calls — two sharing a wall-clock reading — get the ids
with counters 1, 2, 3, all distinct. -/
theorem c9_witness :
    (runIdGeneration [700, 5, 5] 0).2 = 0 + 3 ∧
    ((runIdGeneration [700, 5, 5] 0).1).get? 2 = some (generateRequestId 5 3) ∧
    ((runIdGeneration [700, 5, 5] 0).1).Pairwise (fun a b => a ≠ b) := by
  obtain ⟨h1, h2, h3, _⟩ := c9_request_ids_unique [700, 5, 5] 0
  refine ⟨h1, ?_, h3⟩
  have := h2 2 (by decide)
  simpa using this

end PromptProxy
